import Mathlib

set_option maxRecDepth 100000

/-!
Shallow embedding of `src/main.py` (art3m4ik3/cloudflare-solver).

The Python module defines dataclasses `CloudflareCookie` and `TurnstileToken`
with validating constructors, an enum `ChallengeType`, and a class
`CloudflareSolver` whose async method `solve` navigates a browser page, polls
for the Cloudflare challenge frame, clicks it, and extracts either a
`cf_clearance` cookie or a Turnstile token.

Browser effects are modelled by an `Env` record of oracles: each page
interaction is an `Except Err`-valued observation, so a `.error` value stands
for a raised Python exception at that interaction.  The mutable fields
`self.cf_clearance` / `self.turnstile_token` are threaded explicitly through a
`SolverState`.  `solveBody` is the body of the `try:` block (an uncaught
exception surfaces as `.error`, carrying the state as mutated so far), and
`solve` adds the top-level `except Exception` clause, which returns `None`.
-/

namespace CFSolver

abbrev Err := String

/-- Byte-wise prefix test on char lists, used to embed Python's
`str.startswith` so that it reduces in the kernel. -/
def isPre : List Char → List Char → Bool
  | [], _ => true
  | _ :: _, [] => false
  | p :: ps, c :: cs => p == c && isPre ps cs

/-- Python's `s.startswith(p)`. -/
def strStartsWith (s p : String) : Bool := isPre p.data s.data

/-- `ChallengeType` enum from `main.py`. -/
inductive ChallengeType
  | CHALLENGE
  | TURNSTILE
deriving DecidableEq, Repr

/-- The `CloudflareCookie` dataclass fields (`main.py` lines 22-33). -/
structure CloudflareCookie where
  name : String
  value : String
  domain : String
  path : String
  expires : Int
  http_only : Bool
  secure : Bool
  same_site : String
deriving DecidableEq, Repr

/-- `CloudflareCookie.__post_init__` validation: constructing the dataclass
raises `ValueError` when `name` or `value` is falsy (empty). -/
def mkCloudflareCookie (name value domain path : String) (expires : Int)
    (http_only secure : Bool) (same_site : String) : Except Err CloudflareCookie :=
  if name = "" ∨ value = "" then
    .error "Cookie name and value must be set"
  else
    .ok ⟨name, value, domain, path, expires, http_only, secure, same_site⟩

/-- A raw cookie dictionary returned by the automation layer: each key may be
absent (`none`). -/
structure RawCookie where
  name : Option String
  value : Option String
  domain : Option String
  path : Option String
  expires : Option Int
  httpOnly : Option Bool
  secure : Option Bool
  sameSite : Option String
deriving DecidableEq, Repr

/-- `CloudflareCookie.from_json`: `cookie_data.get(key, default)` for each
field, then dataclass construction (which validates). -/
def CloudflareCookie.from_json (c : RawCookie) : Except Err CloudflareCookie :=
  mkCloudflareCookie (c.name.getD "") (c.value.getD "") (c.domain.getD "")
    (c.path.getD "/") (c.expires.getD 0) (c.httpOnly.getD false)
    (c.secure.getD false) (c.sameSite.getD "Lax")

/-- The `TurnstileToken` dataclass. -/
structure TurnstileToken where
  token : String
deriving DecidableEq, Repr

/-- `TurnstileToken.__post_init__` validation: raises when `token` is empty. -/
def mkTurnstileToken (token : String) : Except Err TurnstileToken :=
  if token = "" then .error "Token must be set" else .ok ⟨token⟩

/-- A frame's bounding box (`bounding_box()` dictionary), rational coordinates. -/
structure BoundingBox where
  x : ℚ
  y : ℚ
  width : ℚ
  height : ℚ
deriving DecidableEq, Repr

/-- A page frame: its URL and its bounding box (`none` models a falsy
`bounding_box()` result). -/
structure Frame where
  url : String
  boundingBox : Option BoundingBox
deriving DecidableEq, Repr

/-- Checkbox coordinates computed in `_find_and_click_challenge_frame`:
`(x + width / 9, y + height / 2)`. -/
def checkboxPoint (bb : BoundingBox) : ℚ × ℚ :=
  (bb.x + bb.width / 9, bb.y + bb.height / 2)

/-- The point actually clicked by `_human_click`: the requested coordinates
plus a jitter `random.uniform(-5, 5)` on each axis. -/
def humanClickTarget (x y jx jy : ℚ) : ℚ × ℚ :=
  (x + jx, y + jy)

/-- Oracles for every browser interaction `solve` performs.  A `.error` value
models a raised exception at that interaction. -/
structure Env where
  browserAcq : Except Err Unit
  newPage : Except Err Unit
  goto : Except Err Unit
  framesAt : Nat → Except Err (List Frame)
  clickAt : Nat → Except Err Unit
  cookies : Except Err (List RawCookie)
  tokenInputsAt : Nat → Except Err (List (Option String))

/-- The frame scan of `_find_and_click_challenge_frame`: first frame whose URL
starts with the challenge host and whose bounding box is truthy; a matching
frame with a falsy box is skipped (`continue`). -/
def challengeFrameBox : List Frame → Option BoundingBox
  | [] => none
  | f :: rest =>
    if strStartsWith f.url "https://challenges.cloudflare.com" then
      match f.boundingBox with
      | some bb => some bb
      | none => challengeFrameBox rest
    else
      challengeFrameBox rest

/-- `_find_and_click_challenge_frame` at polling iteration `i`: list the
frames, and if the scan finds a clickable frame, issue the click (which may
itself fault) and return `true`; otherwise return `false`. -/
def findAndClickChallengeFrame (env : Env) (i : Nat) : Except Err Bool :=
  match env.framesAt i with
  | .error e => .error e
  | .ok fs =>
    match challengeFrameBox fs with
    | some _ =>
      match env.clickAt i with
      | .error e => .error e
      | .ok _ => .ok true
    | none => .ok false

/-- The polling-and-click loop in `solve` (lines 171-175): up to `retries`
iterations; `break` after the first iteration whose click succeeded. -/
def clickLoop (env : Env) : List Nat → Except Err Unit
  | [] => .ok ()
  | i :: rest =>
    match findAndClickChallengeFrame env i with
    | .error e => .error e
    | .ok true => .ok ()
    | .ok false => clickLoop env rest

/-- Instrumentation of `clickLoop`: the iteration indices at which a
human-like click sequence is issued (entered), including a click whose mouse
events then fault. -/
def clicksIssued (env : Env) : List Nat → List Nat
  | [] => []
  | i :: rest =>
    match env.framesAt i with
    | .error _ => []
    | .ok fs =>
      match challengeFrameBox fs with
      | some _ => [i]
      | none => clicksIssued env rest

/-- The filter in `_get_turnstile_token`: `if token and len(token) > 10`. -/
def acceptToken : Option String → Option String
  | some t => if t.length > 10 then some t else none
  | none => none

/-- Scan one iteration's token inputs for the first acceptable value. -/
def tokenInList (vals : List (Option String)) : Option String :=
  vals.findSome? acceptToken

/-- The retry loop of `_get_turnstile_token`: query the token inputs each
iteration, return the first acceptable value, `none` after the last retry. -/
def turnstileLoop (env : Env) : List Nat → Except Err (Option String)
  | [] => .ok none
  | i :: rest =>
    match env.tokenInputsAt i with
    | .error e => .error e
    | .ok vals =>
      match tokenInList vals with
      | some t => .ok (some t)
      | none => turnstileLoop env rest

/-- `_get_turnstile_token`: the retry loop wrapped in its own
`try/except` which collapses any fault to `None`. -/
def getTurnstileToken (env : Env) (retries : Nat) : Option String :=
  match turnstileLoop env (List.range retries) with
  | .ok r => r
  | .error _ => none

/-- The constructor arguments of `CloudflareSolver` that determine `solve`'s
control flow. -/
structure Config where
  challenge_type : ChallengeType
  retries : Nat
deriving DecidableEq, Repr

/-- The mutable result fields of a `CloudflareSolver` instance, set in
`__init__` to `None` and assigned by `solve`. -/
structure SolverState where
  cf_clearance : Option CloudflareCookie
  turnstile_token : Option TurnstileToken
deriving DecidableEq, Repr

/-- `CloudflareSolver.__init__`: both stored results start absent. -/
def initState : SolverState := ⟨none, none⟩

/-- The `Union[CloudflareCookie, TurnstileToken]` return type of `solve`. -/
inductive SolveResult
  | cookie (c : CloudflareCookie)
  | token (t : TurnstileToken)
deriving DecidableEq, Repr

/-- The body of the `try:` block of `solve` (lines 161-213): browser
acquisition, page creation, navigation, the polling-and-click loop, then the
type-dependent extraction.  A `.error` result is an exception reaching the
top-level handler, carrying the state as mutated so far. -/
def solveBody (cfg : Config) (env : Env) (st : SolverState) :
    Except (SolverState × Err) (SolverState × Option SolveResult) :=
  match env.browserAcq with
  | .error e => .error (st, e)
  | .ok _ =>
  match env.newPage with
  | .error e => .error (st, e)
  | .ok _ =>
  match env.goto with
  | .error e => .error (st, e)
  | .ok _ =>
  match clickLoop env (List.range cfg.retries) with
  | .error e => .error (st, e)
  | .ok _ =>
  match cfg.challenge_type with
  | .CHALLENGE =>
    match env.cookies with
    | .error e => .error (st, e)
    | .ok cookies =>
      match cookies.find? (fun c => c.name == some "cf_clearance") with
      | some c =>
        match CloudflareCookie.from_json c with
        | .error e => .error (st, e)
        | .ok ck =>
          let st' := { st with cf_clearance := some ck }
          .ok (st', st'.cf_clearance.map SolveResult.cookie)
      | none => .ok (st, st.cf_clearance.map SolveResult.cookie)
  | .TURNSTILE =>
    match getTurnstileToken env cfg.retries with
    | some t =>
      match mkTurnstileToken t with
      | .error e => .error (st, e)
      | .ok tk =>
        let st' := { st with turnstile_token := some tk }
        .ok (st', st'.turnstile_token.map SolveResult.token)
    | none => .ok (st, st.turnstile_token.map SolveResult.token)

/-- `CloudflareSolver.solve`: the body wrapped in `except Exception`, which
logs and returns `None` (lines 215-217). -/
def solve (cfg : Config) (env : Env) (st : SolverState) :
    SolverState × Option SolveResult :=
  match solveBody cfg env st with
  | .ok r => r
  | .error (st', _) => (st', none)

/-- The solver state in which a run of `solveBody` ended, whether it returned
or raised. -/
def exceptState : Except (SolverState × Err) (SolverState × Option SolveResult) → SolverState
  | .ok (s, _) => s
  | .error (s, _) => s

/-! Concrete fixtures used by witnesses and counterexamples. -/

/-- A clearance cookie as stored by an earlier successful `solve` call. -/
def ckStored : CloudflareCookie :=
  ⟨"cf_clearance", "oldvalue", "example.com", "/", 0, false, false, "Lax"⟩

/-- A resolver state left behind by an earlier successful challenge solve. -/
def stStale : SolverState := ⟨some ckStored, none⟩

def cfgChal1 : Config := ⟨.CHALLENGE, 1⟩

def cfgTurn1 : Config := ⟨.TURNSTILE, 1⟩

/-- A fault-free environment with no frames, no cookies, no token inputs. -/
def envQuiet : Env :=
  ⟨.ok (), .ok (), .ok (), fun _ => .ok [], fun _ => .ok (), .ok [], fun _ => .ok []⟩

/-- A raw `cf_clearance` cookie whose `value` entry is the empty string. -/
def rawEmptyVal : RawCookie :=
  ⟨some "cf_clearance", some "", none, none, none, none, none, none⟩

def envEmptyVal : Env := { envQuiet with cookies := .ok [rawEmptyVal] }

/-- A well-formed raw `cf_clearance` cookie with some optional keys missing. -/
def rawGood : RawCookie :=
  ⟨some "cf_clearance", some "clearance-value", some "example.com",
    none, none, none, none, none⟩

/-- The record `from_json` builds from `rawGood`. -/
def ckGood : CloudflareCookie :=
  ⟨"cf_clearance", "clearance-value", "example.com", "/", 0, false, false, "Lax"⟩

/-- Clearance cookie present in the context although no frame ever appeared. -/
def envCookieNoFrame : Env := { envQuiet with cookies := .ok [rawGood] }

/-- Navigation raises. -/
def envNavFault : Env := { envQuiet with goto := .error "net::ERR_FAILED" }

/-- A challenge frame with a truthy bounding box. -/
def chFrame : Frame :=
  ⟨"https://challenges.cloudflare.com/cdn-cgi/challenge", some ⟨10, 20, 300, 65⟩⟩

def envFrame : Env := { envQuiet with framesAt := fun _ => .ok [chFrame] }

/-- Token inputs observed on each turnstile polling iteration. -/
def valsToken : Nat → List (Option String) :=
  fun _ => [some "short", some "0.tokenvalue-long"]

def envToken : Env := { envQuiet with tokenInputsAt := fun i => .ok (valsToken i) }

/-- A raw cookie with only `name` and `value` present. -/
def rawPartial : RawCookie :=
  ⟨some "cf_clearance", some "abc", none, none, none, none, none, none⟩

def c8bb : BoundingBox := ⟨0, 0, 90, 40⟩

/-- Every Turnstile token-input query raises. -/
def envTokenFault : Env := { envQuiet with tokenInputsAt := fun _ => .error "boom" }

/-- A token stored by an earlier successful Turnstile solve. -/
def tkStored : TurnstileToken := ⟨"0.stale-token"⟩

/-- A resolver state left behind by an earlier successful Turnstile solve. -/
def stStaleToken : SolverState := ⟨none, some tkStored⟩

/-! ## Helper lemmas -/

theorem solve_fst (cfg : Config) (env : Env) (st : SolverState) :
    (solve cfg env st).1 = exceptState (solveBody cfg env st) := by
  unfold solve exceptState
  rcases solveBody cfg env st with ⟨s, e⟩ | ⟨s, r⟩ <;> rfl

theorem exceptState_solveBody_turnstile (env : Env) (st : SolverState) (r : Nat) :
    (exceptState (solveBody ⟨ChallengeType.TURNSTILE, r⟩ env st)).cf_clearance
      = st.cf_clearance := by
  unfold solveBody
  cases env.browserAcq with
  | error e => rfl
  | ok u =>
  dsimp only
  cases env.newPage with
  | error e => rfl
  | ok u2 =>
  dsimp only
  cases env.goto with
  | error e => rfl
  | ok u3 =>
  dsimp only
  cases clickLoop env (List.range r) with
  | error e => rfl
  | ok u4 =>
  dsimp only
  cases getTurnstileToken env r with
  | none => rfl
  | some t =>
  dsimp only
  cases mkTurnstileToken t with
  | error e => rfl
  | ok tk => rfl

theorem exceptState_solveBody_challenge (env : Env) (st : SolverState) (r : Nat) :
    (exceptState (solveBody ⟨ChallengeType.CHALLENGE, r⟩ env st)).turnstile_token
      = st.turnstile_token := by
  unfold solveBody
  cases env.browserAcq with
  | error e => rfl
  | ok u =>
  dsimp only
  cases env.newPage with
  | error e => rfl
  | ok u2 =>
  dsimp only
  cases env.goto with
  | error e => rfl
  | ok u3 =>
  dsimp only
  cases clickLoop env (List.range r) with
  | error e => rfl
  | ok u4 =>
  dsimp only
  cases env.cookies with
  | error e => rfl
  | ok cs =>
  dsimp only
  cases cs.find? (fun c => c.name == some "cf_clearance") with
  | none => rfl
  | some c =>
  dsimp only
  cases CloudflareCookie.from_json c with
  | error e => rfl
  | ok ck => rfl

theorem turnstileLoop_eq (env : Env) (vals : Nat → List (Option String)) :
    ∀ l : List Nat, (∀ i ∈ l, env.tokenInputsAt i = .ok (vals i)) →
      turnstileLoop env l = .ok ((l.flatMap vals).findSome? acceptToken)
  | [], _ => rfl
  | i :: rest, h => by
    unfold turnstileLoop tokenInList
    rw [h i (List.mem_cons_self i rest)]
    dsimp only
    rw [List.flatMap_cons, List.findSome?_append]
    cases hv : (vals i).findSome? acceptToken with
    | some t => rfl
    | none =>
      dsimp only [Option.or]
      exact turnstileLoop_eq env vals rest fun j hj => h j (List.mem_cons_of_mem i hj)

theorem solveBody_challenge (env : Env) (st : SolverState) (retries : Nat)
    (cs : List RawCookie)
    (hb : env.browserAcq = .ok ()) (hp : env.newPage = .ok ()) (hg : env.goto = .ok ())
    (hl : clickLoop env (List.range retries) = .ok ())
    (hc : env.cookies = .ok cs) :
    solveBody ⟨ChallengeType.CHALLENGE, retries⟩ env st =
      (match cs.find? (fun c => c.name == some "cf_clearance") with
      | some c =>
        match CloudflareCookie.from_json c with
        | .error e => .error (st, e)
        | .ok ck =>
          .ok ({ st with cf_clearance := some ck }, some (SolveResult.cookie ck))
      | none => .ok (st, st.cf_clearance.map SolveResult.cookie)) := by
  unfold solveBody
  rw [hb]
  dsimp only
  rw [hp]
  dsimp only
  rw [hg]
  dsimp only
  rw [hl]
  dsimp only
  rw [hc]
  dsimp only
  rfl

theorem solveBody_turnstile (env : Env) (st : SolverState) (retries : Nat)
    (hb : env.browserAcq = .ok ()) (hp : env.newPage = .ok ()) (hg : env.goto = .ok ())
    (hl : clickLoop env (List.range retries) = .ok ()) :
    solveBody ⟨ChallengeType.TURNSTILE, retries⟩ env st =
      (match getTurnstileToken env retries with
      | some t =>
        match mkTurnstileToken t with
        | .error e => .error (st, e)
        | .ok tk =>
          .ok ({ st with turnstile_token := some tk }, some (SolveResult.token tk))
      | none => .ok (st, st.turnstile_token.map SolveResult.token)) := by
  unfold solveBody
  rw [hb]
  dsimp only
  rw [hp]
  dsimp only
  rw [hg]
  dsimp only
  rw [hl]
  dsimp only
  rfl

theorem clickLoop_ok_of_no_frame (env : Env) (fs : Nat → List Frame) :
    ∀ l : List Nat, (∀ i ∈ l, env.framesAt i = .ok (fs i)) →
      (∀ i ∈ l, challengeFrameBox (fs i) = none) →
      clickLoop env l = .ok ()
  | [], _, _ => rfl
  | i :: rest, h1, h2 => by
    unfold clickLoop findAndClickChallengeFrame
    rw [h1 i (List.mem_cons_self i rest)]
    dsimp only
    rw [h2 i (List.mem_cons_self i rest)]
    dsimp only
    exact clickLoop_ok_of_no_frame env fs rest
      (fun j hj => h1 j (List.mem_cons_of_mem i hj))
      (fun j hj => h2 j (List.mem_cons_of_mem i hj))

/-! ## Claim theorems -/

/-- C1 counterexample: a fault raised during Turnstile extraction is caught by
the inner handler of `_get_turnstile_token`, not the top level, and `solve`
then returns its stored turnstile-token field — on a resolver whose earlier
call stored a token, a non-absent result, so the claim fails as stated. -/
theorem turnstile_fault_stale_counterexample :
    solve cfgTurn1 envTokenFault stStaleToken =
      (stStaleToken, some (SolveResult.token tkStored)) ∧
    (solve cfgTurn1 envTokenFault stStaleToken).2 ≠ none :=
  ⟨rfl, by decide⟩

/-- C1 amended: no exception ever propagates out of `solve`.  Every fault that
reaches the top-level handler (browser acquisition, navigation, polling,
clicking, or challenge-mode extraction) makes `solve` return the absent
result; a fault during Turnstile extraction is instead swallowed by the inner
handler of `_get_turnstile_token` and treated as token-not-found, after which
`solve` returns its stored turnstile-token field. -/
theorem solve_fault_handling (cfg : Config) (env : Env) (st : SolverState) :
    (∀ st' e, solveBody cfg env st = .error (st', e) → solve cfg env st = (st', none)) ∧
    (∀ retries e, env.browserAcq = .ok () → env.newPage = .ok () → env.goto = .ok () →
      clickLoop env (List.range retries) = .ok () →
      turnstileLoop env (List.range retries) = .error e →
      solve ⟨ChallengeType.TURNSTILE, retries⟩ env st =
        (st, st.turnstile_token.map SolveResult.token)) := by
  constructor
  · intro st' e h
    unfold solve
    rw [h]
  · intro retries e hb hp hg hl hloop
    have hget : getTurnstileToken env retries = none := by
      unfold getTurnstileToken
      rw [hloop]
    unfold solve
    rw [solveBody_turnstile env st retries hb hp hg hl, hget]

theorem solve_fault_handling_witness :
    solve cfgChal1 envNavFault initState = (initState, none) ∧
    solve ⟨ChallengeType.TURNSTILE, 1⟩ envTokenFault initState = (initState, none) :=
  ⟨(solve_fault_handling cfgChal1 envNavFault initState).1 initState "net::ERR_FAILED" rfl,
   (solve_fault_handling cfgTurn1 envTokenFault initState).2 1 "boom" rfl rfl rfl rfl rfl⟩

/-- C3: for a raw cookie dictionary with non-empty `name` and `value` entries,
`from_json` succeeds and fills each missing optional field with its default
(`path="/"`, `sameSite="Lax"`, `httpOnly=false`, `secure=false`, `expires=0`,
`domain=""`), while fields present in the dictionary are copied unchanged. -/
theorem from_json_fills_defaults (c : RawCookie) (n v : String)
    (hn : c.name = some n) (hn' : n ≠ "") (hv : c.value = some v) (hv' : v ≠ "") :
    CloudflareCookie.from_json c =
      .ok ⟨n, v, c.domain.getD "", c.path.getD "/", c.expires.getD 0,
        c.httpOnly.getD false, c.secure.getD false, c.sameSite.getD "Lax"⟩ := by
  unfold CloudflareCookie.from_json mkCloudflareCookie
  rw [hn, hv]
  simp [hn', hv']

theorem from_json_fills_defaults_witness :
    CloudflareCookie.from_json rawPartial =
      .ok ⟨"cf_clearance", "abc", "", "/", 0, false, false, "Lax"⟩ :=
  from_json_fills_defaults rawPartial "cf_clearance" "abc" rfl (by decide) rfl (by decide)

/-- C6: constructing a `CloudflareCookie` succeeds exactly when `name` and
`value` are non-empty, and constructing a `TurnstileToken` succeeds exactly
when the token string is non-empty; the failing cases raise at construction. -/
theorem construction_validates_nonempty (name value domain path : String) (expires : Int)
    (ho se : Bool) (ss tok : String) :
    ((∃ c, mkCloudflareCookie name value domain path expires ho se ss = .ok c) ↔
      name ≠ "" ∧ value ≠ "") ∧
    ((∃ t, mkTurnstileToken tok = .ok t) ↔ tok ≠ "") := by
  constructor
  · unfold mkCloudflareCookie
    split
    · rename_i h
      constructor
      · rintro ⟨c, hc⟩
        cases hc
      · intro hnv
        rcases h with h | h
        · exact absurd h hnv.1
        · exact absurd h hnv.2
    · rename_i h
      push_neg at h
      exact ⟨fun _ => h, fun _ => ⟨_, rfl⟩⟩
  · unfold mkTurnstileToken
    split
    · rename_i h
      constructor
      · rintro ⟨t, ht⟩
        cases ht
      · intro h2
        exact absurd h h2
    · rename_i h
      exact ⟨fun _ => h, fun _ => ⟨_, rfl⟩⟩

theorem construction_validates_nonempty_witness :
    (¬ ∃ c, mkCloudflareCookie "" "v" "example.com" "/" 0 false false "Lax" = .ok c) ∧
    (∃ t, mkTurnstileToken "0.tok" = .ok t) := by
  have h := construction_validates_nonempty "" "v" "example.com" "/" 0 false false "Lax" "0.tok"
  exact ⟨fun hc => absurd rfl (h.1.mp hc).1, h.2.mpr (by decide)⟩

/-- C8: for a frame bounding box with non-negative width and height and jitter
draws in `[-5, 5]` on each axis, the clicked point
`(x + width/9 + jx, y + height/2 + jy)` lies within the bounding box extended
by 5 units on every side. -/
theorem click_target_within_box (bb : BoundingBox) (jx jy : ℚ)
    (hw : 0 ≤ bb.width) (hh : 0 ≤ bb.height)
    (hx1 : -5 ≤ jx) (hx2 : jx ≤ 5) (hy1 : -5 ≤ jy) (hy2 : jy ≤ 5) :
    bb.x - 5 ≤ (humanClickTarget (checkboxPoint bb).1 (checkboxPoint bb).2 jx jy).1 ∧
    (humanClickTarget (checkboxPoint bb).1 (checkboxPoint bb).2 jx jy).1 ≤ bb.x + bb.width + 5 ∧
    bb.y - 5 ≤ (humanClickTarget (checkboxPoint bb).1 (checkboxPoint bb).2 jx jy).2 ∧
    (humanClickTarget (checkboxPoint bb).1 (checkboxPoint bb).2 jx jy).2 ≤ bb.y + bb.height + 5 := by
  unfold humanClickTarget checkboxPoint
  dsimp only
  refine ⟨by linarith, by linarith, by linarith, by linarith⟩

theorem click_target_within_box_witness :
    c8bb.x - 5 ≤ (humanClickTarget (checkboxPoint c8bb).1 (checkboxPoint c8bb).2 3 (-4)).1 ∧
    (humanClickTarget (checkboxPoint c8bb).1 (checkboxPoint c8bb).2 3 (-4)).1
      ≤ c8bb.x + c8bb.width + 5 ∧
    c8bb.y - 5 ≤ (humanClickTarget (checkboxPoint c8bb).1 (checkboxPoint c8bb).2 3 (-4)).2 ∧
    (humanClickTarget (checkboxPoint c8bb).1 (checkboxPoint c8bb).2 3 (-4)).2
      ≤ c8bb.y + c8bb.height + 5 :=
  click_target_within_box c8bb 3 (-4) (by norm_num [c8bb]) (by norm_num [c8bb])
    (by norm_num) (by norm_num) (by norm_num) (by norm_num)

/-- C9: during one solve call at most one human-like click sequence is ever
issued, and the polling loop stops right after the first iteration whose
click succeeded, regardless of how many iterations remain. -/
theorem at_most_one_click (env : Env) (l : List Nat) :
    (clicksIssued env l).length ≤ 1 ∧
    (∀ i rest, findAndClickChallengeFrame env i = .ok true →
      clickLoop env (i :: rest) = .ok ()) := by
  constructor
  · induction l with
    | nil => simp [clicksIssued]
    | cons i rest ih =>
      unfold clicksIssued
      cases h : env.framesAt i with
      | error e => simp
      | ok fs =>
        dsimp only
        cases hb : challengeFrameBox fs with
        | none => exact ih
        | some bb => simp
  · intro i rest h
    unfold clickLoop
    rw [h]

theorem at_most_one_click_witness :
    (clicksIssued envFrame [0, 1, 2]).length ≤ 1 ∧
    clickLoop envFrame (0 :: [1, 2]) = .ok () :=
  ⟨(at_most_one_click envFrame [0, 1, 2]).1,
   (at_most_one_click envFrame [0, 1, 2]).2 0 [1, 2] rfl⟩

/-- C10: a Turnstile-mode solve call never modifies the stored
clearance-cookie field, and a challenge-mode solve call never modifies the
stored turnstile-token field, on every exit path (return or caught fault). -/
theorem solve_preserves_other_mode_field (cfg : Config) (env : Env) (st : SolverState) :
    (cfg.challenge_type = ChallengeType.TURNSTILE →
      (solve cfg env st).1.cf_clearance = st.cf_clearance) ∧
    (cfg.challenge_type = ChallengeType.CHALLENGE →
      (solve cfg env st).1.turnstile_token = st.turnstile_token) := by
  obtain ⟨ct, r⟩ := cfg
  constructor
  · intro h
    cases h
    rw [solve_fst]
    exact exceptState_solveBody_turnstile env st r
  · intro h
    cases h
    rw [solve_fst]
    exact exceptState_solveBody_challenge env st r

theorem solve_preserves_other_mode_field_witness :
    (solve cfgTurn1 envToken stStale).1.cf_clearance = stStale.cf_clearance :=
  (solve_preserves_other_mode_field cfgTurn1 envToken stStale).1 rfl

/-- C2 counterexample: on a resolver whose earlier challenge solve stored a
clearance cookie, a later call that finds no `cf_clearance` cookie returns the
stale stored cookie instead of absence, because `solve` returns
`self.cf_clearance`. -/
theorem stale_cookie_returned_counterexample :
    solve cfgChal1 envQuiet stStale = (stStale, some (SolveResult.cookie ckStored)) ∧
    (solve cfgChal1 envQuiet stStale).2 ≠ none := by
  exact ⟨rfl, by decide⟩

/-- C2 amended: in challenge mode, when no `cf_clearance` cookie is present
after the click loop, `solve` returns the resolver's stored clearance-cookie
field (for any prior state); on a resolver whose stored field is still absent
(such as a freshly constructed one) this is the absent result. -/
theorem no_cookie_returns_stored (env : Env) (st : SolverState) (retries : Nat)
    (cs : List RawCookie)
    (hb : env.browserAcq = .ok ()) (hp : env.newPage = .ok ()) (hg : env.goto = .ok ())
    (hl : clickLoop env (List.range retries) = .ok ())
    (hc : env.cookies = .ok cs)
    (hfind : cs.find? (fun c => c.name == some "cf_clearance") = none) :
    solve ⟨ChallengeType.CHALLENGE, retries⟩ env st =
      (st, st.cf_clearance.map SolveResult.cookie) := by
  unfold solve
  rw [solveBody_challenge env st retries cs hb hp hg hl hc, hfind]

theorem no_cookie_returns_stored_witness :
    solve ⟨ChallengeType.CHALLENGE, 2⟩ envQuiet stStale =
      (stStale, some (SolveResult.cookie ckStored)) :=
  no_cookie_returns_stored envQuiet stStale 2 [] rfl rfl rfl rfl rfl rfl

/-- C4: in Turnstile mode, over the token-input values observed across at most
`retries` polling iterations, the extraction returns the first value of length
strictly greater than 10 verbatim, skips every value of length 10 or less,
and yields absence when no iteration produced such a value. -/
theorem turnstile_first_long_token (env : Env) (retries : Nat)
    (vals : Nat → List (Option String))
    (h : ∀ i, i < retries → env.tokenInputsAt i = .ok (vals i)) :
    getTurnstileToken env retries =
      ((List.range retries).flatMap vals).findSome? acceptToken := by
  unfold getTurnstileToken
  rw [turnstileLoop_eq env vals (List.range retries)
    (fun i hi => h i (List.mem_range.mp hi))]

theorem turnstile_first_long_token_witness :
    getTurnstileToken envToken 1 = some "0.tokenvalue-long" := by
  rw [turnstile_first_long_token envToken 1 valsToken (fun i _ => rfl)]
  decide

/-- C5 counterexample: a cookie named `cf_clearance` with an empty value is
present in the browsing context, yet `solve` in challenge mode returns absence
(dataclass validation raises on the empty value and the top-level handler
collapses it), so the claim fails as stated. -/
theorem empty_value_cookie_counterexample :
    rawEmptyVal.name = some "cf_clearance" ∧
    solve cfgChal1 envEmptyVal initState = (initState, none) :=
  ⟨rfl, rfl⟩

/-- C5 amended: in challenge mode, if the linear scan finds a cookie named
`cf_clearance` whose value is present and non-empty, `solve` returns a record
whose name field equals `cf_clearance` and whose value field equals the raw
cookie's value exactly. -/
theorem clearance_cookie_returned (env : Env) (st : SolverState) (retries : Nat)
    (cs : List RawCookie) (c : RawCookie) (v : String)
    (hb : env.browserAcq = .ok ()) (hp : env.newPage = .ok ()) (hg : env.goto = .ok ())
    (hl : clickLoop env (List.range retries) = .ok ())
    (hc : env.cookies = .ok cs)
    (hfind : cs.find? (fun c => c.name == some "cf_clearance") = some c)
    (hv : c.value = some v) (hv' : v ≠ "") :
    ∃ ck : CloudflareCookie,
      solve ⟨ChallengeType.CHALLENGE, retries⟩ env st =
        ({ st with cf_clearance := some ck }, some (SolveResult.cookie ck)) ∧
      ck.name = "cf_clearance" ∧ ck.value = v := by
  have hbeq := List.find?_some hfind
  have hname : c.name = some "cf_clearance" := eq_of_beq hbeq
  have hok : CloudflareCookie.from_json c =
      .ok ⟨"cf_clearance", v, c.domain.getD "", c.path.getD "/", c.expires.getD 0,
        c.httpOnly.getD false, c.secure.getD false, c.sameSite.getD "Lax"⟩ := by
    unfold CloudflareCookie.from_json mkCloudflareCookie
    rw [hname, hv]
    simp [hv']
  refine ⟨⟨"cf_clearance", v, c.domain.getD "", c.path.getD "/", c.expires.getD 0,
    c.httpOnly.getD false, c.secure.getD false, c.sameSite.getD "Lax"⟩, ?_, rfl, rfl⟩
  unfold solve
  rw [solveBody_challenge env st retries cs hb hp hg hl hc, hfind]
  dsimp only
  rw [hok]

theorem clearance_cookie_returned_witness :
    ∃ ck : CloudflareCookie,
      solve ⟨ChallengeType.CHALLENGE, 1⟩ envCookieNoFrame initState =
        ({ initState with cf_clearance := some ck }, some (SolveResult.cookie ck)) ∧
      ck.name = "cf_clearance" ∧ ck.value = "clearance-value" :=
  clearance_cookie_returned envCookieNoFrame initState 1 [rawGood] rawGood
    "clearance-value" rfl rfl rfl rfl rfl rfl rfl (by decide)

/-- C7 counterexample: no challenge frame ever appears (every polling
iteration sees an empty frame list), yet `solve` returns a clearance cookie
that was already present in the context, not the absent result, so the claim
fails as stated. -/
theorem no_frame_nonabsent_counterexample :
    solve cfgChal1 envCookieNoFrame initState =
      (⟨some ckGood, none⟩, some (SolveResult.cookie ckGood)) ∧
    (solve cfgChal1 envCookieNoFrame initState).2 ≠ none :=
  ⟨rfl, by decide⟩

/-- C7 amended: if no frame matching the challenge-widget host appears during
any of the `retries` polling iterations, the loop falls through to extraction
rather than failing, and `solve` — without raising — returns absence provided
extraction also finds nothing and the resolver's stored field is absent. -/
theorem no_frame_falls_through (env : Env) (fs : Nat → List Frame) (st : SolverState)
    (retries : Nat) (cs : List RawCookie)
    (hf : ∀ i, i < retries → env.framesAt i = .ok (fs i))
    (hnf : ∀ i, i < retries → challengeFrameBox (fs i) = none)
    (hb : env.browserAcq = .ok ()) (hp : env.newPage = .ok ()) (hg : env.goto = .ok ())
    (hc : env.cookies = .ok cs)
    (hfind : cs.find? (fun c => c.name == some "cf_clearance") = none)
    (hfresh : st.cf_clearance = none) :
    clickLoop env (List.range retries) = .ok () ∧
    solve ⟨ChallengeType.CHALLENGE, retries⟩ env st = (st, none) := by
  have hl : clickLoop env (List.range retries) = .ok () :=
    clickLoop_ok_of_no_frame env fs (List.range retries)
      (fun i hi => hf i (List.mem_range.mp hi))
      (fun i hi => hnf i (List.mem_range.mp hi))
  refine ⟨hl, ?_⟩
  unfold solve
  rw [solveBody_challenge env st retries cs hb hp hg hl hc, hfind]
  dsimp only
  rw [hfresh]
  rfl

theorem no_frame_falls_through_witness :
    clickLoop envQuiet (List.range 2) = .ok () ∧
    solve ⟨ChallengeType.CHALLENGE, 2⟩ envQuiet initState = (initState, none) :=
  no_frame_falls_through envQuiet (fun _ => []) initState 2 []
    (fun _ _ => rfl) (fun _ _ => rfl) rfl rfl rfl rfl rfl rfl

end CFSolver
